import Mathlib

/-!
Verification development for the dependency-graph analyzer
(`dep-graph-analyzer.py`) and its report consumer
(`dep-graph-analysis-report.py`).

The analyzer is embedded shallowly:
* a filesystem snapshot is a finite list of (absolute path, text content)
  pairs; directories are exactly the strict prefixes of file paths;
* absolute paths are lists of name segments (the leading `/` of a POSIX
  path carries no information here);
* Python `re` patterns are hand-translated into deterministic scanners —
  each of the five import regexes is deterministic (every alternation in
  them is discriminated by its first character, and every repetition is a
  character-class repeat whose follower is outside the class), so greedy
  maximal-munch matching coincides with Python backtracking semantics;
* `Path.resolve()` is modelled as lexical `..`-collapse (no symlinks in
  the snapshot model);
* `sorted(files)` is modelled as a stable insertion sort under
  segmentwise lexicographic order (distinct paths, so tie behaviour is
  irrelevant).
-/

namespace DepGraph

/-! ## Paths and filesystem snapshot -/

/-- An absolute path, as its list of name segments below the root. -/
abbrev FPath := List String

/-- A filesystem snapshot: the regular files with their text contents. -/
structure Fs where
  files : List (FPath × String)
deriving Repr

/-- `Path.is_file`-style existence of a regular file. -/
def fsIsFile (fs : Fs) (p : FPath) : Bool :=
  fs.files.any (fun f => f.1 == p)

/-- `Path.is_dir`: in the snapshot model a directory exists exactly when
some regular file lies strictly below it. -/
def fsIsDir (fs : Fs) (p : FPath) : Bool :=
  fs.files.any (fun f => p.isPrefixOf f.1 && !(f.1 == p))

/-- Python `Path.exists()`: true for files and directories alike. -/
def pyExists (fs : Fs) (p : FPath) : Bool :=
  fsIsFile fs p || fsIsDir fs p

/-- Reading a file: `none` models the unreadable/absent case that the
analyzer recovers from by returning no imports. -/
def fsRead (fs : Fs) (p : FPath) : Option String :=
  (fs.files.find? (fun f => f.1 == p)).map (fun f => f.2)

/-- `startswith`, structurally on the character lists. -/
def strStartsWith (s pre : String) : Bool :=
  pre.data.isPrefixOf s.data

/-- `endswith`, structurally on the character lists. -/
def strEndsWith (s suf : String) : Bool :=
  suf.data.isSuffixOf s.data

/-- Drop the first `n` characters of a string (Python `s[n:]`). -/
def strDrop (s : String) (n : Nat) : String :=
  ⟨s.data.drop n⟩

/-- Split on `/`, structurally. -/
def splitSlashAux : List Char → List Char → List String
  | [], acc => [⟨acc.reverse⟩]
  | c :: cs, acc =>
    if c == '/' then ⟨acc.reverse⟩ :: splitSlashAux cs []
    else splitSlashAux cs (c :: acc)

/-- Splitting a path string the way `pathlib` parses it: `/` separates
segments, empty segments and single dots are dropped at parse time. -/
def splitPath (s : String) : List String :=
  (splitSlashAux s.data []).filter (fun seg => seg != "" && seg != ".")

/-- `base / s` for a path string `s`: an absolute `s` replaces the base. -/
def joinRel (base : FPath) (s : String) : FPath :=
  if strStartsWith s "/" then splitPath s else base ++ splitPath s

/-- Lexical `Path.resolve()`: collapse `..` segments (at the root, `..`
stays at the root). The snapshot model has no symlinks. -/
def normalizePath (p : FPath) : FPath :=
  p.foldl (fun acc seg => if seg == ".." then acc.dropLast else acc ++ [seg]) []

/-- Index (from the left) of the last `.` in a segment, if any. -/
def lastDotIdx (cs : List Char) : Option Nat :=
  (List.range cs.length).foldl
    (fun acc i => if cs.getD i ' ' == '.' then some i else acc) none

/-- Length of `PurePath.suffix` of a name: nonempty exactly when the last
dot sits strictly inside the name (not first and not last character). -/
def pySuffixLen (name : String) : Nat :=
  match lastDotIdx name.data with
  | some i => if 0 < i && i + 1 < name.data.length then name.data.length - i else 0
  | none => 0

/-- `PurePath.with_suffix` on a single name: replace the suffix when
there is one, append the new suffix otherwise. -/
def pyWithSuffixName (name ext : String) : String :=
  ⟨name.data.take (name.data.length - pySuffixLen name) ++ ext.data⟩

/-- `Path.with_suffix` on a path. On the (never exercised) empty path,
where Python raises `ValueError`, we return the path unchanged. -/
def withSuffix (p : FPath) (ext : String) : FPath :=
  match p.getLast? with
  | none => p
  | some name => p.dropLast ++ [pyWithSuffixName name ext]

/-- `path.relative_to(root)` for a path below `root` (the only way the
analyzer calls it on discovered files). -/
def relTo (root : FPath) (p : FPath) : FPath :=
  p.drop root.length

/-- `str()` of a root-relative path. -/
def joinSegs : FPath → String
  | [] => ""
  | [a] => a
  | a :: rest => a ++ "/" ++ joinSegs rest

/-- Substring containment, Python's `sub in s`. -/
def strContains (hay sub : String) : Bool :=
  (List.range (hay.data.length + 1)).any
    (fun i => sub.data.isPrefixOf (hay.data.drop i))

/-- Code-point lexicographic strict comparison of character lists. -/
def charsLt : List Char → List Char → Bool
  | [], [] => false
  | [], _ :: _ => true
  | _ :: _, [] => false
  | a :: as, b :: bs => if a == b then charsLt as bs else decide (a.toNat < b.toNat)

/-- Segmentwise lexicographic comparison backing `sorted(files)`. -/
def pathLe : FPath → FPath → Bool
  | [], _ => true
  | _ :: _, [] => false
  | a :: as, b :: bs => if a == b then pathLe as bs else charsLt a.data b.data

/-- Stable insertion of one element into a sorted list. -/
def insertSorted (a : FPath) : List FPath → List FPath
  | [] => [a]
  | b :: bs => if pathLe a b then a :: b :: bs else b :: insertSorted a bs

/-- `sorted` for path lists. -/
def sortPaths (l : List FPath) : List FPath :=
  l.foldr insertSorted []

/-! ## The five import regexes of `import_patterns`, as scanners

Each scanner tries to match at the head of the character list and, on
success, returns the capture group together with the unconsumed rest.
`reFindall` then reproduces `re.findall`: scan left to right, take the
leftmost match, continue after it. -/

/-- Python `\s` on ASCII input. -/
def isPySpace (c : Char) : Bool :=
  c == ' ' || c == '\t' || c == '\n' || c == '\r' ||
    c == Char.ofNat 11 || c == Char.ofNat 12

/-- Python `\w` on ASCII input. -/
def isPyWord (c : Char) : Bool :=
  c.isAlphanum || c == '_'

/-- The single-quote character. -/
def squote : Char := Char.ofNat 39

/-- The double-quote character. -/
def dquote : Char := Char.ofNat 34

/-- The character class of `['"]`. -/
def isQuoteChar (c : Char) : Bool :=
  c == squote || c == dquote

/-- The `{` character. -/
def lbraceChar : Char := Char.ofNat 123

/-- The `}` character. -/
def rbraceChar : Char := Char.ofNat 125

/-- Match a literal string. -/
def reLit : List Char → List Char → Option (List Char)
  | [], s => some s
  | _ :: _, [] => none
  | l :: ls, c :: cs => if c == l then reLit ls cs else none

/-- `\s*`. -/
def reWs0 : List Char → List Char
  | [] => []
  | c :: cs => if isPySpace c then reWs0 cs else c :: cs

/-- `\s+`. -/
def reWs1 : List Char → Option (List Char)
  | [] => none
  | c :: cs => if isPySpace c then some (reWs0 cs) else none

/-- Greedy character-class repetition, returning matched part and rest. -/
def reTakeWhile (p : Char → Bool) : List Char → List Char × List Char
  | [] => ([], [])
  | c :: cs =>
    if p c then
      let t := reTakeWhile p cs
      (c :: t.1, t.2)
    else ([], c :: cs)

/-- `\w+`. -/
def reWord1 : List Char → Option (List Char)
  | [] => none
  | c :: cs => if isPyWord c then some (reTakeWhile isPyWord cs).2 else none

/-- `['"]([^'"]+)['"]` — either quote opens, either quote closes. -/
def reQuoted : List Char → Option (String × List Char)
  | [] => none
  | c :: cs =>
    if isQuoteChar c then
      let t := reTakeWhile (fun d => !(isQuoteChar d)) cs
      match t.1, t.2 with
      | [], _ => none
      | _ :: _, r :: rs => if isQuoteChar r then some (⟨t.1⟩, rs) else none
      | _ :: _, [] => none
    else none

/-- `\s+from\s+`. -/
def reFromTail (s : List Char) : Option (List Char) := do
  let s ← reWs1 s
  let s ← reLit "from".data s
  reWs1 s

/-- The optional clause `(?:(?:\x7b[^\x7d]*\x7d|\*\s+as\s+\w+|\w+)\s+from\s+)?`
of the static-import regex. The three alternatives and the empty fallback
are discriminated by the first character, so the scan is deterministic. -/
def reStaticClause : List Char → Option (List Char)
  | [] => some []
  | c :: cs =>
    if c == lbraceChar then
      let t := reTakeWhile (fun d => !(d == rbraceChar)) cs
      match t.2 with
      | r :: rs => if r == rbraceChar then reFromTail rs else none
      | [] => none
    else if c == '*' then do
      let s ← reWs1 cs
      let s ← reLit "as".data s
      let s ← reWs1 s
      let s ← reWord1 s
      reFromTail s
    else if isPyWord c then
      reFromTail (reTakeWhile isPyWord cs).2
    else
      some (c :: cs)

/-- `static_import`: `import\s+(?:...\s+from\s+)?['"]([^'"]+)['"]`. -/
def reStatic (s : List Char) : Option (String × List Char) := do
  let s ← reLit "import".data s
  let s ← reWs1 s
  let s ← reStaticClause s
  reQuoted s

/-- `dynamic_import`: `import\s*\(\s*['"]([^'"]+)['"]\s*\)`. -/
def reDynamic (s : List Char) : Option (String × List Char) := do
  let s ← reLit "import".data s
  let s ← reLit "(".data (reWs0 s)
  let t ← reQuoted (reWs0 s)
  let r ← reLit ")".data (reWs0 t.2)
  pure (t.1, r)

/-- `lazy_import`:
`React\.lazy\s*\(\s*\(\s*\)\s*=>\s*import\s*\(\s*['"]([^'"]+)['"]\s*\)\s*\)`. -/
def reLazy (s : List Char) : Option (String × List Char) := do
  let s ← reLit "React.lazy".data s
  let s ← reLit "(".data (reWs0 s)
  let s ← reLit "(".data (reWs0 s)
  let s ← reLit ")".data (reWs0 s)
  let s ← reLit "=>".data (reWs0 s)
  let s ← reLit "import".data (reWs0 s)
  let s ← reLit "(".data (reWs0 s)
  let t ← reQuoted (reWs0 s)
  let r ← reLit ")".data (reWs0 t.2)
  let r ← reLit ")".data (reWs0 r)
  pure (t.1, r)

/-- `require`: `require\s*\(\s*['"]([^'"]+)['"]\s*\)`. -/
def reRequire (s : List Char) : Option (String × List Char) := do
  let s ← reLit "require".data s
  let s ← reLit "(".data (reWs0 s)
  let t ← reQuoted (reWs0 s)
  let r ← reLit ")".data (reWs0 t.2)
  pure (t.1, r)

/-- The `(?:\x7b[^\x7d]*\x7d|\*)` clause of the re-export regex. -/
def reExportClause : List Char → Option (List Char)
  | [] => none
  | c :: cs =>
    if c == lbraceChar then
      let t := reTakeWhile (fun d => !(d == rbraceChar)) cs
      match t.2 with
      | r :: rs => if r == rbraceChar then some rs else none
      | [] => none
    else if c == '*' then some cs
    else none

/-- `export_from`: `export\s+(?:...|\*)\s+from\s+['"]([^'"]+)['"]`. -/
def reExportFrom (s : List Char) : Option (String × List Char) := do
  let s ← reLit "export".data s
  let s ← reWs1 s
  let s ← reExportClause s
  let s ← reFromTail s
  reQuoted s

/-- `re.findall` driver. Every scanner consumes at least one character on
success, so a fuel of the input length suffices. -/
def reFindallAux (m : List Char → Option (String × List Char)) :
    Nat → List Char → List String
  | 0, _ => []
  | _ + 1, [] => []
  | fuel + 1, c :: cs =>
    match m (c :: cs) with
    | some (cap, rest) => cap :: reFindallAux m fuel rest
    | none => reFindallAux m fuel cs

/-- `pattern.findall(content)`. -/
def reFindall (m : List Char → Option (String × List Char)) (s : String) :
    List String :=
  reFindallAux m s.data.length s.data

/-! ## The analyzer -/

/-- `ImportInfo` dataclass. -/
structure ImportInfo where
  from_file : String
  to_file : String
  import_type : String
  import_name : Option String := none
  is_external : Bool := false
deriving DecidableEq, Repr

/-- `FileNode` dataclass. -/
structure FileNode where
  id : String
  type : String
  imports : Nat := 0
  imported_by : Nat := 0
  is_orphaned : Bool := false
deriving DecidableEq, Repr

/-- `self.import_patterns`, in dict insertion order. -/
def import_patterns : List (String × (List Char → Option (String × List Char))) :=
  [("static_import", reStatic),
   ("dynamic_import", reDynamic),
   ("lazy_import", reLazy),
   ("require", reRequire),
   ("export_from", reExportFrom)]

/-- `self.file_type_patterns`, in dict insertion order. -/
def file_type_patterns : List (String × List String) :=
  [("entry", ["main.tsx", "main.ts", "index.html"]),
   ("test", [".test.", ".spec.", "__tests__"]),
   ("config", ["config.", "setup.", ".config."]),
   ("type", [".d.ts", "types.ts"])]

/-- `any(pattern in relative_path for pattern in patterns)`. -/
def patMatch (pats : List String) (s : String) : Bool :=
  pats.any (fun p => strContains s p)

/-- The recognized source extensions (also the resolver probe order). -/
def sourceExtensions : List String :=
  [".ts", ".tsx", ".js", ".jsx"]

/-- Does an object name match the glob `*<ext>`? -/
def matchesExt (p : FPath) (ext : String) : Bool :=
  match p.getLast? with
  | some n => strEndsWith n ext
  | none => false

/-- Every directory of the snapshot: the strict prefixes of file paths
(`rglob`/`glob` yield directories too when their names match). -/
def dirsOf (fs : Fs) : List FPath :=
  ((fs.files.map (fun f => f.1.dropLast)).map
    (fun d => (List.range (d.length + 1)).map (fun i => d.take i))).flatten.eraseDups

/-- All filesystem objects (files and directories), files first. -/
def fsObjects (fs : Fs) : List FPath :=
  (fs.files.map (fun f => f.1) ++ dirsOf fs).eraseDups

/-- `get_all_source_files`: recursive glob below `src`, plus a
non-recursive glob at the project root, sorted. -/
def get_all_source_files (fs : Fs) (projectRoot : FPath) : List FPath :=
  let srcRoot := projectRoot ++ ["src"]
  let objs := fsObjects fs
  let fromSrc := (sourceExtensions.map (fun e =>
    objs.filter (fun p =>
      srcRoot.isPrefixOf p && !(p == srcRoot) && matchesExt p e))).flatten
  let fromRoot := (sourceExtensions.map (fun e =>
    objs.filter (fun p =>
      p.length == projectRoot.length + 1 && projectRoot.isPrefixOf p &&
        matchesExt p e))).flatten
  sortPaths (fromSrc ++ fromRoot)

/-- `classify_file_type`, split on its two inputs: the root-relative path
string (pattern rules) and the absolute `parts` (directory rules). -/
def classifyRel (rp : String) (parts : List String) : String :=
  if patMatch ["main.tsx", "main.ts", "index.html"] rp then "entry"
  else if patMatch [".test.", ".spec.", "__tests__"] rp then "test"
  else if patMatch ["config.", "setup.", ".config."] rp then "config"
  else if patMatch [".d.ts", "types.ts"] rp then "type"
  else if parts.contains "components" then "component"
  else if parts.contains "services" || parts.contains "api" then "service"
  else if parts.contains "utils" || parts.contains "lib" then "utility"
  else if parts.contains "pages" then "page"
  else if parts.contains "hooks" then "hook"
  else if parts.contains "context" || parts.contains "providers" then "context"
  else if parts.contains "features" then "feature"
  else "module"

/-- `classify_file_type` on an absolute file path. -/
def classify_file_type (projectRoot : FPath) (p : FPath) : String :=
  classifyRel (joinSegs (relTo projectRoot p)) p

/-- The fixed role vocabulary of the classifier. -/
def allRoles : List String :=
  ["entry", "test", "config", "type", "component", "service", "utility",
   "page", "hook", "context", "feature", "module"]

/-- Base directory and remaining path after the alias rewrite of
`resolve_import_path` (`@/` strips to the `src` root, otherwise the
declaring file's directory). -/
def resolveBase (projectRoot : FPath) (importPath : String) (fromFile : FPath) :
    FPath × String :=
  if strStartsWith importPath "@/" then (projectRoot ++ ["src"], strDrop importPath 2)
  else (fromFile.dropLast, importPath)

/-- `(base_path / import_path).resolve()`. -/
def candidatePath (projectRoot : FPath) (importPath : String) (fromFile : FPath) :
    FPath :=
  normalizePath (joinRel (resolveBase projectRoot importPath fromFile).1
    (resolveBase projectRoot importPath fromFile).2)

/-- The direct-file probe: each extension in priority order, keeping the
candidates that exist. -/
def probeDirect (fs : Fs) (r : FPath) : List FPath :=
  sourceExtensions.filterMap (fun e =>
    if pyExists fs (withSuffix r e) then some (withSuffix r e) else none)

/-- The directory-index probe, attempted only when the candidate is an
existing directory. -/
def probeIndexDir (fs : Fs) (r : FPath) : List FPath :=
  if fsIsDir fs r then
    sourceExtensions.filterMap (fun e =>
      if pyExists fs (r ++ ["index" ++ e]) then some (r ++ ["index" ++ e])
      else none)
  else []

/-- `possible_paths`: direct matches first, then index matches. -/
def probePaths (fs : Fs) (r : FPath) : List FPath :=
  probeDirect fs r ++ probeIndexDir fs r

/-- `resolve_import_path`. -/
def resolve_import_path (fs : Fs) (projectRoot : FPath) (importPath : String)
    (fromFile : FPath) : Option FPath :=
  if !(strStartsWith importPath ".") && !(strStartsWith importPath "@/") then none
  else
    (probePaths fs (candidatePath projectRoot importPath fromFile)).find?
      (fun p => pyExists fs p)

/-- The provisional kind attached to a resolved record, keyed by the
pattern that produced the match (lines 172-177 of the source). -/
def kindOf (patName : String) : String :=
  if patName == "dynamic_import" || patName == "lazy_import" then "dynamic"
  else if patName == "export_from" then "re-export" else "static"

/-- One emitted record of `extract_imports_from_file`: resolved matches
become internal records with the mapped kind; unresolved matches become
external records whose kind is hard-coded `static`. -/
def mkImportInfo (fs : Fs) (projectRoot : FPath) (relFrom : String)
    (fromFile : FPath) (patName importPath : String) : ImportInfo :=
  match resolve_import_path fs projectRoot importPath fromFile with
  | some resolved =>
    { from_file := relFrom, to_file := joinSegs (relTo projectRoot resolved),
      import_type := kindOf patName, import_name := some importPath,
      is_external := false }
  | none =>
    { from_file := relFrom, to_file := importPath, import_type := "static",
      import_name := some importPath, is_external := true }

/-- `extract_imports_from_file`: an unreadable file yields no records;
otherwise each pattern's matches are emitted in pattern order. -/
def extract_imports_from_file (fs : Fs) (projectRoot : FPath) (p : FPath) :
    List ImportInfo :=
  match fsRead fs p with
  | none => []
  | some content =>
    let relFrom := joinSegs (relTo projectRoot p)
    (import_patterns.map (fun pt =>
      (reFindall pt.2 content).map
        (fun ip => mkImportInfo fs projectRoot relFrom p pt.1 ip))).flatten

/-- The initial node records created during discovery/classification. -/
def initialNodes (fs : Fs) (projectRoot : FPath) : List FileNode :=
  (get_all_source_files fs projectRoot).map (fun p =>
    { id := joinSegs (relTo projectRoot p),
      type := classify_file_type projectRoot p })

/-- The full raw edge list across all discovered files. -/
def allEdges (fs : Fs) (projectRoot : FPath) : List ImportInfo :=
  ((get_all_source_files fs projectRoot).map
    (extract_imports_from_file fs projectRoot)).flatten

/-- `import_counts[id]`: internal edges leaving `id`. -/
def countFrom (edges : List ImportInfo) (id : String) : Nat :=
  (edges.filter (fun e => !e.is_external && e.from_file == id)).length

/-- `imported_by_counts[id]`: internal edges entering `id`. -/
def countTo (edges : List ImportInfo) (id : String) : Nat :=
  (edges.filter (fun e => !e.is_external && e.to_file == id)).length

/-- The Graph Builder's aggregation pass on one node (lines 230-233). -/
def updateNode (edges : List ImportInfo) (n : FileNode) : FileNode :=
  { n with
    imports := countFrom edges n.id,
    imported_by := countTo edges n.id,
    is_orphaned := countTo edges n.id == 0 &&
      !(n.type == "entry" || n.type == "test") }

/-- `build_dependency_graph`: the finished node list and edge list. -/
def build_dependency_graph (fs : Fs) (projectRoot : FPath) :
    List FileNode × List ImportInfo :=
  let edges := allEdges fs projectRoot
  ((initialNodes fs projectRoot).map (updateNode edges), edges)

/-- The `stats` object of the JSON document. -/
structure GraphStats where
  totalFiles : Nat
  totalImports : Nat
  orphanedFiles : Nat
  externalDependencies : Nat
  entryPoints : Nat
  fileTypes : List (String × Nat)
deriving DecidableEq, Repr

/-- The JSON output document. -/
structure JsonOutput where
  nodes : List FileNode
  edges : List ImportInfo
  stats : GraphStats
  orphanedFiles : List String
deriving DecidableEq, Repr

/-- `generate_json_output`. The Python `set` iteration order behind
`fileTypes` is unspecified; first-appearance order is used here. -/
def generate_json_output (nodes : List FileNode) (edges : List ImportInfo) :
    JsonOutput :=
  let internal := edges.filter (fun e => !e.is_external)
  let orphans := nodes.filter (fun n => n.is_orphaned)
  { nodes := nodes,
    edges := internal,
    stats :=
      { totalFiles := nodes.length,
        totalImports := internal.length,
        orphanedFiles := orphans.length,
        externalDependencies := (edges.filter (fun e => e.is_external)).length,
        entryPoints := (nodes.filter (fun n => n.type == "entry")).length,
        fileTypes := ((nodes.map (fun n => n.type)).eraseDups).map
          (fun t => (t, (nodes.filter (fun n => n.type == t)).length)) },
    orphanedFiles := orphans.map (fun n => n.id) }

/-! ## The report's test-coverage ratio -/

/-- The roles the report counts as testable source files. -/
def srcRoles : List String :=
  ["component", "service", "utility", "hook"]

/-- The report's test-coverage ratio (lines 141-143 of
`dep-graph-analysis-report.py`): `len(tests)/len(sources)` guarded to `0`
when there are no source-role nodes. Exact rational arithmetic stands in
for Python float division; the zero branch is exact either way. -/
def testRatioVal (nodes : List FileNode) : ℚ :=
  let tests := nodes.filter (fun n => n.type == "test")
  let srcs := nodes.filter (fun n => srcRoles.contains n.type)
  if srcs.length = 0 then 0
  else (tests.length : ℚ) / (srcs.length : ℚ)

/-! ## Concrete project fixtures used by the theorems -/

/-- A project whose only source file imports `../scripts/b`, which exists
on disk but outside both discovery roots. -/
def fsC1 : Fs :=
  ⟨[(["r", "src", "a.ts"], "import b from \"../scripts/b\""),
    (["r", "scripts", "b.ts"], "")]⟩

/-- A project with a single orphaned utility-less module. -/
def fsC2 : Fs :=
  ⟨[(["r", "src", "util.ts"], "")]⟩

/-- A project whose only source file is a bare dynamic import of an
external package. -/
def fsC4 : Fs :=
  ⟨[(["r", "src", "f.ts"], "import(\"react\")")]⟩

/-- The text of one lazy-loading wrapper statement. -/
def lazyStmt : String := "React.lazy(() => import(\"./Lazy\"))"

/-- A project whose app file is exactly one lazy-wrapper statement. -/
def fsC5 : Fs :=
  ⟨[(["r", "src", "App.tsx"], lazyStmt),
    (["r", "src", "Lazy.tsx"], "")]⟩

/-- A project with two resolution candidates differing only by
extension. -/
def fsC6 : Fs :=
  ⟨[(["r", "src", "styles.ts"], ""), (["r", "src", "styles.tsx"], ""),
    (["r", "src", "app.tsx"], "")]⟩

/-- A project with an alias-addressable service module. -/
def fsC7 : Fs :=
  ⟨[(["r", "src", "services", "x.ts"], ""), (["r", "src", "app.tsx"], "")]⟩

/-- A project whose entry imports a file outside the discovery roots,
so the finished graph violates the no-dangling-edges invariant. -/
def fsC8 : Fs :=
  ⟨[(["p", "src", "main.ts"], "import q from \"../tools/q\""),
    (["p", "tools", "q.ts"], "")]⟩

/-- A project containing both `styles.css` and `styles.ts`. -/
def fsC9 : Fs :=
  ⟨[(["r", "src", "styles.ts"], ""), (["r", "src", "styles.css"], ""),
    (["r", "src", "app.tsx"], "")]⟩

/-! ## Helper lemmas -/

/-- The first extension whose direct candidate exists heads the probe
list, before any remaining candidates. -/
theorem find_probe_aux (fs : Fs) (r : FPath) :
    ∀ (l : List String) (rest : List FPath) (e : String),
      l.find? (fun x => pyExists fs (withSuffix r x)) = some e →
      ((l.filterMap (fun x =>
          if pyExists fs (withSuffix r x) then some (withSuffix r x)
          else none)) ++ rest).find? (fun p => pyExists fs p) =
        some (withSuffix r e) := by
  intro l
  induction l with
  | nil => intro rest e h; simp at h
  | cons a as ih =>
    intro rest e h
    by_cases ha : pyExists fs (withSuffix r a) = true
    · have he : e = a := by
        rw [List.find?_cons] at h
        simp [ha] at h
        exact h.symm
      subst he
      simp [List.filterMap_cons, ha, List.find?_cons]
    · have ha' : pyExists fs (withSuffix r a) = false := by
        simpa using ha
      rw [List.find?_cons] at h
      simp [ha'] at h
      simpa [List.filterMap_cons, ha'] using ih rest e h

/-- Any import that passes the external guard resolves to the direct
candidate of the first extension that exists, whatever else exists. -/
theorem resolve_first_ext (fs : Fs) (root : FPath) (imp : String)
    (fromFile : FPath) (e : String)
    (hg : (!(strStartsWith imp ".") && !(strStartsWith imp "@/")) = false)
    (hf : sourceExtensions.find?
        (fun x => pyExists fs (withSuffix (candidatePath root imp fromFile) x)) =
      some e) :
    resolve_import_path fs root imp fromFile =
      some (withSuffix (candidatePath root imp fromFile) e) := by
  unfold resolve_import_path
  simp only [hg, Bool.false_eq_true, if_false]
  unfold probePaths probeDirect
  exact find_probe_aux fs _ sourceExtensions _ e hf

/-- Folding the `..`-collapse over segments free of `..` appends them. -/
theorem foldl_norm_no_dotdot (l : List String) :
    ∀ (acc : FPath), ".." ∉ l →
      l.foldl (fun acc seg => if seg == ".." then acc.dropLast else acc ++ [seg])
        acc = acc ++ l := by
  induction l with
  | nil => intro acc _; simp
  | cons a as ih =>
    intro acc h
    rw [List.mem_cons, not_or] at h
    have ha : (a == "..") = false := by
      simpa using fun hc => h.1 (by simp [hc])
    rw [List.foldl_cons]
    simp only [ha, Bool.false_eq_true, if_false]
    rw [ih (acc ++ [a]) h.2]
    simp

/-- `Path.resolve()` is the identity on paths without `..` segments. -/
theorem normalize_no_dotdot (l : FPath) (h : ".." ∉ l) :
    normalizePath l = l := by
  unfold normalizePath
  simpa using foldl_norm_no_dotdot l [] h

/-- `with_suffix` acts on the final segment only. -/
theorem withSuffix_concat (l : FPath) (a ext : String) :
    withSuffix (l ++ [a]) ext = l ++ [pyWithSuffixName a ext] := by
  simp [withSuffix, List.getLast?_concat, List.dropLast_concat]

/-- A conditional whose branches both lie in a list lies in the list. -/
theorem mem_ite_of_mem {c : Prop} [Decidable c] {a b : String} {l : List String}
    (ha : a ∈ l) (hb : b ∈ l) : (if c then a else b) ∈ l := by
  by_cases h : c
  · rwa [if_pos h]
  · rwa [if_neg h]

/-! ## Claim theorems -/

/-- Claim C1: on the fixture project the pipeline emits an edge with
externality false whose target identity `scripts/b.ts` is not among the
node identities — the resolver resolves `../scripts/b` to an existing
file outside both discovery roots instead of falling back to external,
so the no-dangling-internal-edge invariant fails on the built graph. -/
theorem c1_dangling_internal_edge_eval :
    (build_dependency_graph fsC1 ["r"]).2 =
      [{ from_file := "src/a.ts", to_file := "scripts/b.ts",
         import_type := "static", import_name := some "../scripts/b",
         is_external := false }] ∧
    (build_dependency_graph fsC1 ["r"]).1.map (fun n => n.id) = ["src/a.ts"] ∧
    ¬ ("scripts/b.ts" ∈ (build_dependency_graph fsC1 ["r"]).1.map (fun n => n.id)) := by
  refine ⟨rfl, rfl, ?_⟩
  decide

/-- Claim C2: after the Graph Builder's aggregation pass, a node's orphan
flag is true exactly when its incoming count is zero and its role is
neither entry nor test. -/
theorem orphan_iff_no_incoming_not_entry_test (fs : Fs) (root : FPath)
    (n : FileNode) (hn : n ∈ (build_dependency_graph fs root).1) :
    n.is_orphaned = true ↔
      n.imported_by = 0 ∧ n.type ≠ "entry" ∧ n.type ≠ "test" := by
  simp only [build_dependency_graph] at hn
  rcases List.mem_map.1 hn with ⟨m, _, rfl⟩
  simp [updateNode, not_or, and_assoc]

/-- Witness for C2 on the single-file fixture project. -/
theorem orphan_iff_no_incoming_not_entry_test_witness :
    ({ id := "src/util.ts", type := "module", imports := 0, imported_by := 0,
       is_orphaned := true } : FileNode).is_orphaned = true ↔
      ({ id := "src/util.ts", type := "module", imports := 0, imported_by := 0,
         is_orphaned := true } : FileNode).imported_by = 0 ∧
      ({ id := "src/util.ts", type := "module", imports := 0, imported_by := 0,
         is_orphaned := true } : FileNode).type ≠ "entry" ∧
      ({ id := "src/util.ts", type := "module", imports := 0, imported_by := 0,
         is_orphaned := true } : FileNode).type ≠ "test" :=
  orphan_iff_no_incoming_not_entry_test fsC2 ["r"] _ (by decide)

/-- Claim C3: the classifier always lands in its fixed role vocabulary,
and the pattern rules run before the directory rules: a path under a
`components` directory that carries a test marker (and no entry marker)
classifies as test, not component. -/
theorem classify_pattern_rules_priority (root : FPath) (p : FPath) :
    classify_file_type root p ∈ allRoles ∧
      ("components" ∈ p →
        patMatch [".test.", ".spec.", "__tests__"] (joinSegs (relTo root p)) = true →
        patMatch ["main.tsx", "main.ts", "index.html"] (joinSegs (relTo root p)) = false →
        classify_file_type root p = "test") := by
  constructor
  · show classifyRel (joinSegs (relTo root p)) p ∈ allRoles
    unfold classifyRel
    exact mem_ite_of_mem (by decide) (mem_ite_of_mem (by decide)
      (mem_ite_of_mem (by decide) (mem_ite_of_mem (by decide)
      (mem_ite_of_mem (by decide) (mem_ite_of_mem (by decide)
      (mem_ite_of_mem (by decide) (mem_ite_of_mem (by decide)
      (mem_ite_of_mem (by decide) (mem_ite_of_mem (by decide)
      (mem_ite_of_mem (by decide) (by decide)))))))))))
  · intro _ ht he
    unfold classify_file_type classifyRel
    simp [he, ht]

/-- Witness for C3 at `src/components/Foo.test.tsx`. -/
theorem classify_pattern_rules_priority_witness :
    classify_file_type ["r"] ["r", "src", "components", "Foo.test.tsx"] = "test" :=
  (classify_pattern_rules_priority ["r"] ["r", "src", "components", "Foo.test.tsx"]).2
    (by decide) (by decide) (by decide)

/-- Claim C4 counterexample: `import("react")` is matched only by the
dynamic-import pattern, yet because it does not resolve internally the
emitted record's kind is `static`, not the `dynamic` the claim requires
for externally-classified records as well. -/
theorem c4_counterexample_external_dynamic_static :
    extract_imports_from_file fsC4 ["r"] ["r", "src", "f.ts"] =
      [{ from_file := "src/f.ts", to_file := "react", import_type := "static",
         import_name := some "react", is_external := true }] ∧
    reFindall reDynamic "import(\"react\")" = ["react"] ∧
    reFindall reStatic "import(\"react\")" = [] ∧
    reFindall reLazy "import(\"react\")" = [] ∧
    reFindall reRequire "import(\"react\")" = [] ∧
    reFindall reExportFrom "import(\"react\")" = [] ∧
    "static" ≠ "dynamic" := by
  refine ⟨rfl, rfl, rfl, rfl, rfl, rfl, ?_⟩
  decide

/-- Claim C4 (amended): a record that resolves internally carries the
kind mapped from the matching pattern (dynamic-import and lazy-wrapper
to dynamic, re-export-from to re-export, static otherwise), while every
externally-classified record carries kind `static` regardless of the
pattern that matched it. -/
theorem kind_mapping_internal_only (fs : Fs) (root : FPath) (relFrom : String)
    (fromFile : FPath) (patName importPath : String) :
    (mkImportInfo fs root relFrom fromFile patName importPath).import_type =
      if (mkImportInfo fs root relFrom fromFile patName importPath).is_external
      then "static" else kindOf patName := by
  unfold mkImportInfo
  cases h : resolve_import_path fs root importPath fromFile <;> simp

/-- Claim C5 counterexample: a file whose whole content is the single
lazy-wrapper statement yields two raw import records, not one. -/
theorem c5_counterexample_lazy_double_count :
    (extract_imports_from_file fsC5 ["r"] ["r", "src", "App.tsx"]).length = 2 := rfl

/-- Claim C5 (amended): one lazy-wrapper statement is matched by both
the dynamic-import pattern and the lazy-wrapper pattern (and by no
other), so it yields exactly two records for the same import path. -/
theorem lazy_statement_two_records :
    extract_imports_from_file fsC5 ["r"] ["r", "src", "App.tsx"] =
      [{ from_file := "src/App.tsx", to_file := "src/Lazy.tsx",
         import_type := "dynamic", import_name := some "./Lazy",
         is_external := false },
       { from_file := "src/App.tsx", to_file := "src/Lazy.tsx",
         import_type := "dynamic", import_name := some "./Lazy",
         is_external := false }] ∧
    reFindall reDynamic lazyStmt = ["./Lazy"] ∧
    reFindall reLazy lazyStmt = ["./Lazy"] ∧
    reFindall reStatic lazyStmt = [] ∧
    reFindall reRequire lazyStmt = [] ∧
    reFindall reExportFrom lazyStmt = [] :=
  ⟨rfl, rfl, rfl, rfl, rfl, rfl⟩

/-- Claim C6: resolution probes the extensions in their fixed priority
order and the first existing candidate wins — whenever some direct
candidate exists, the result is the direct candidate of the first
extension that exists, so an earlier-listed extension always beats a
later one and a direct-file match always beats a directory index
match. -/
theorem resolve_extension_priority (fs : Fs) (root : FPath) (imp : String)
    (fromFile : FPath) (e : String)
    (hg : (!(strStartsWith imp ".") && !(strStartsWith imp "@/")) = false)
    (hf : sourceExtensions.find?
        (fun x => pyExists fs (withSuffix (candidatePath root imp fromFile) x)) =
      some e) :
    resolve_import_path fs root imp fromFile =
      some (withSuffix (candidatePath root imp fromFile) e) :=
  resolve_first_ext fs root imp fromFile e hg hf

/-- Witness for C6: with both `styles.ts` and `styles.tsx` present,
`./styles` resolves to the `.ts` candidate. -/
theorem resolve_extension_priority_witness :
    resolve_import_path fsC6 ["r"] "./styles" ["r", "src", "app.tsx"] =
      some ["r", "src", "styles.ts"] := by
  have h := resolve_extension_priority fsC6 ["r"] "./styles"
    ["r", "src", "app.tsx"] ".ts" (by decide) (by decide)
  have h2 : withSuffix (candidatePath ["r"] "./styles" ["r", "src", "app.tsx"])
      ".ts" = ["r", "src", "styles.ts"] := by decide
  rw [h2] at h
  exact h

/-- Claim C7: an alias-marked import path resolves identically from any
two declaring files — after the marker is stripped, resolution works
against the source root and never consults the declaring file. -/
theorem alias_resolution_location_independent (fs : Fs) (root : FPath)
    (imp : String) (f1 f2 : FPath) (h : strStartsWith imp "@/" = true) :
    resolve_import_path fs root imp f1 = resolve_import_path fs root imp f2 := by
  unfold resolve_import_path candidatePath resolveBase
  simp [h]

/-- Witness for C7: `@/services/x` resolves the same way from a shallow
and from a deeply nested declaring file, namely to `src/services/x.ts`. -/
theorem alias_resolution_location_independent_witness :
    resolve_import_path fsC7 ["r"] "@/services/x" ["r", "src", "app.tsx"] =
      resolve_import_path fsC7 ["r"] "@/services/x"
        ["r", "src", "deep", "down", "b.tsx"] ∧
    resolve_import_path fsC7 ["r"] "@/services/x" ["r", "src", "app.tsx"] =
      some ["r", "src", "services", "x.ts"] :=
  ⟨alias_resolution_location_independent fsC7 ["r"] "@/services/x"
      ["r", "src", "app.tsx"] ["r", "src", "deep", "down", "b.tsx"] (by decide),
    by decide⟩

/-- Claim C8: on the fixture whose finished graph has a dangling internal
edge (target `tools/q.ts` is not a node), the serializer still produces
the complete output document, dangling edge included — there is no
invariant check and no fatal stop before serialization. -/
theorem c8_malformed_graph_still_serialized :
    (generate_json_output (build_dependency_graph fsC8 ["p"]).1
        (build_dependency_graph fsC8 ["p"]).2).edges =
      [{ from_file := "src/main.ts", to_file := "tools/q.ts",
         import_type := "static", import_name := some "../tools/q",
         is_external := false }] ∧
    (generate_json_output (build_dependency_graph fsC8 ["p"]).1
        (build_dependency_graph fsC8 ["p"]).2).nodes.map (fun n => n.id) =
      ["src/main.ts"] ∧
    (generate_json_output (build_dependency_graph fsC8 ["p"]).1
        (build_dependency_graph fsC8 ["p"]).2).stats.totalImports = 1 :=
  ⟨rfl, rfl, rfl⟩

/-- Claim C9: when the candidate's final segment already has a suffix,
the direct probe replaces it rather than appending: `./styles.css`
declared in any file directly under `src` resolves to `src/styles.ts`
whenever that file exists, regardless of what else exists. -/
theorem resolve_replaces_existing_suffix (fs : Fs) (root : FPath) (name : String)
    (h0 : ".." ∉ root)
    (h1 : pyExists fs (root ++ ["src", "styles.ts"]) = true) :
    resolve_import_path fs root "./styles.css" (root ++ ["src", name]) =
      some (root ++ ["src", "styles.ts"]) := by
  have hdrop : (root ++ ["src", name]).dropLast = root ++ ["src"] := by
    have h : root ++ ["src", name] = (root ++ ["src"]) ++ [name] := by simp
    rw [h, List.dropLast_concat]
  have hnd : ".." ∉ (root ++ ["src"]) ++ ["styles.css"] := by
    intro hx
    rcases List.mem_append.1 hx with hx | hx
    · rcases List.mem_append.1 hx with hx | hx
      · exact h0 hx
      · exact absurd hx (by decide)
    · exact absurd hx (by decide)
  have hcand : candidatePath root "./styles.css" (root ++ ["src", name]) =
      (root ++ ["src"]) ++ ["styles.css"] := by
    unfold candidatePath resolveBase
    have hal : strStartsWith "./styles.css" "@/" = false := by decide
    have habs : strStartsWith "./styles.css" "/" = false := by decide
    have hsp : splitPath "./styles.css" = ["styles.css"] := by decide
    simp only [hal, Bool.false_eq_true, if_false, joinRel, habs, hsp, hdrop]
    exact normalize_no_dotdot _ hnd
  have hws : withSuffix ((root ++ ["src"]) ++ ["styles.css"]) ".ts" =
      root ++ ["src", "styles.ts"] := by
    rw [withSuffix_concat]
    have h2 : pyWithSuffixName "styles.css" ".ts" = "styles.ts" := by decide
    rw [h2]
    simp
  have hp : pyExists fs (withSuffix (root ++ ["src", "styles.css"]) ".ts") =
      true := by
    have hassoc : root ++ ["src", "styles.css"] = (root ++ ["src"]) ++ ["styles.css"] := by
      simp
    rw [hassoc, hws]; exact h1
  have hf : sourceExtensions.find?
      (fun x => pyExists fs
        (withSuffix (candidatePath root "./styles.css" (root ++ ["src", name])) x)) =
      some ".ts" := by
    rw [hcand]
    simp [sourceExtensions, List.find?, hp]
  have h := resolve_first_ext fs root "./styles.css" (root ++ ["src", name])
    ".ts" (by decide) hf
  rw [hcand, hws] at h
  exact h

/-- Witness for C9: with both `styles.css` and `styles.ts` on disk,
`./styles.css` from `src/app.tsx` resolves to `src/styles.ts`. -/
theorem resolve_replaces_existing_suffix_witness :
    resolve_import_path fsC9 ["r"] "./styles.css" (["r"] ++ ["src", "app.tsx"]) =
      some (["r"] ++ ["src", "styles.ts"]) :=
  resolve_replaces_existing_suffix fsC9 ["r"] "app.tsx" (by decide) (by decide)

/-- Claim C10: the report's test-coverage ratio is total — on any graph
with no component/service/utility/hook nodes it is 0 rather than a
division failure. -/
theorem coverage_zero_when_no_source_roles (nodes : List FileNode)
    (h : ∀ n ∈ nodes, srcRoles.contains n.type = false) :
    testRatioVal nodes = 0 := by
  have hf : nodes.filter (fun n => srcRoles.contains n.type) = [] :=
    List.filter_eq_nil_iff.2 (fun a ha => by rw [h a ha]; simp)
  simp only [testRatioVal]
  rw [hf]
  simp

/-- Witness for C10 on a graph with a single entry node. -/
theorem coverage_zero_when_no_source_roles_witness :
    testRatioVal [{ id := "index.html", type := "entry" }] = 0 :=
  coverage_zero_when_no_source_roles _ (by decide)

end DepGraph
